import Mathlib

/-!
Shallow embedding of the you-predict-core service (discovery engine,
fan-out scheduler, transform engines, ingestion handlers) with proofs
about its scheduling, idempotence, escaping, delta and flattening logic.

Timestamps are modelled as integers counting seconds (Python `datetime`
arithmetic on second granularity); `timedelta(hours=h)` is `3600 * h`.
-/

namespace YouPredict

/-! ## Time utilities — src/utils/timestamps.py -/

/-- `add_hours(dt, hours) = dt + timedelta(hours=hours)` with timestamps in seconds. -/
def add_hours (dt : Int) (hours : Int) : Int :=
  dt + 3600 * hours

/-- `hours_since(start, end) = (end - start).total_seconds() / 3600` as an exact rational. -/
def hours_since (start e : Int) : ℚ :=
  ((e - start : Int) : ℚ) / 3600

/-- `days_since(start, end) = (end - start).days`; Python `timedelta.days` floors. -/
def days_since (start e : Int) : Int :=
  Int.fdiv (e - start) 86400

/-! ## Fan-out schedule — src/config/constants.py -/

/-- `FanoutSchedule` from src/config/constants.py with its default field values. -/
structure FanoutSchedule where
  snapshot_intervals_hours : List Nat
  comment_pull_hours : List Nat
  transcript_fetch_hours : Nat
deriving Repr, DecidableEq

/-- The module-level frozen instance `FANOUT_SCHEDULE = FanoutSchedule()`. -/
def FANOUT_SCHEDULE : FanoutSchedule :=
  { snapshot_intervals_hours :=
      [1, 2, 3, 4, 6, 8, 10, 12, 14, 16, 18, 20, 22, 24, 36, 48, 72]
  , comment_pull_hours := [24, 72]
  , transcript_fetch_hours := 24 }

/-- `FanoutSchedule.interval_to_snapshot_type(hours) = f"{hours}h"`. -/
def interval_to_snapshot_type (hours : Nat) : String :=
  toString hours ++ "h"

/-! ## Fan-out scheduler — src/services/fanout.py -/

/-- Kind of delayed task created by `enqueue_fanout`. -/
inductive TaskKind
  | snapshot
  | comments
  | transcript
deriving Repr, DecidableEq

/-- One Cloud Task as built inside `enqueue_fanout`: its deduplicating name
(`task_id`), target URL, JSON body fields, and `schedule_time`. -/
structure PlannedTask where
  task_id : String
  kind : TaskKind
  url : String
  body_video_id : String
  body_channel_id : String
  body_interval_hours : Option Nat
  body_published_at : Int
  schedule_time : Int
deriving Repr, DecidableEq

/-- Python `url.rstrip("/")`. -/
def rstrip_slash (s : String) : String :=
  String.mk ((s.toList.reverse.dropWhile (fun c => c = '/')).reverse)

/-- The snapshot task built for one interval in the first loop of `enqueue_fanout`. -/
def snapshot_task (base_url video_id channel_id : String) (published_at : Int)
    (hours : Nat) : PlannedTask :=
  { task_id := video_id ++ "-snapshot-" ++ toString hours ++ "h"
  , kind := TaskKind.snapshot
  , url := base_url ++ "/tasks/snapshot/" ++ video_id ++ "?interval=" ++ toString hours
  , body_video_id := video_id
  , body_channel_id := channel_id
  , body_interval_hours := some hours
  , body_published_at := published_at
  , schedule_time := add_hours published_at hours }

/-- The comment task built for one interval in the second loop of `enqueue_fanout`. -/
def comment_task (base_url video_id channel_id : String) (published_at : Int)
    (hours : Nat) : PlannedTask :=
  { task_id := video_id ++ "-comments-" ++ toString hours ++ "h"
  , kind := TaskKind.comments
  , url := base_url ++ "/tasks/comments/" ++ video_id
  , body_video_id := video_id
  , body_channel_id := channel_id
  , body_interval_hours := none
  , body_published_at := published_at
  , schedule_time := add_hours published_at hours }

/-- The single transcript task built at the end of `enqueue_fanout`. -/
def transcript_task (base_url video_id channel_id : String) (published_at : Int) :
    PlannedTask :=
  { task_id := video_id ++ "-transcript"
  , kind := TaskKind.transcript
  , url := base_url ++ "/tasks/transcript/" ++ video_id
  , body_video_id := video_id
  , body_channel_id := channel_id
  , body_interval_hours := none
  , body_published_at := published_at
  , schedule_time := add_hours published_at (FANOUT_SCHEDULE.transcript_fetch_hours : Int) }

/-- The full task plan of `enqueue_fanout`, in the order the source attempts them:
all snapshot intervals, then all comment intervals, then the transcript task. -/
def fanout_plan (base_url video_id channel_id : String) (published_at : Int) :
    List PlannedTask :=
  (FANOUT_SCHEDULE.snapshot_intervals_hours.map
      (snapshot_task base_url video_id channel_id published_at))
    ++ (FANOUT_SCHEDULE.comment_pull_hours.map
      (comment_task base_url video_id channel_id published_at))
    ++ [transcript_task base_url video_id channel_id published_at]

/-- Outcome of one `client.create_task` call inside `_create_task`:
created, rejected as a duplicate name (`AlreadyExists`), or any other exception. -/
inductive CreateOutcome
  | created
  | alreadyExists
  | failure
deriving Repr, DecidableEq

/-- `_create_task` — returns 1 on success, 1 on `AlreadyExists`
(duplicate fan-out is expected), 0 on any other exception. -/
def create_task (outcome : CreateOutcome) : Nat :=
  match outcome with
  | CreateOutcome.created => 1
  | CreateOutcome.alreadyExists => 1
  | CreateOutcome.failure => 0

/-- The `ok`/`failed` counters accumulated by `enqueue_fanout`, plus the list of
task names it attempted to create, in order. -/
structure FanoutReport where
  ok : Nat
  failed : Nat
  attempted : List String
deriving Repr, DecidableEq

/-- One loop iteration of `enqueue_fanout`:
`ok += success; failed += 1 - success` after attempting the task. -/
def fanout_step (queue_outcome : String → CreateOutcome) (r : FanoutReport)
    (t : PlannedTask) : FanoutReport :=
  let success := create_task (queue_outcome t.task_id)
  { ok := r.ok + success
  , failed := r.failed + (1 - success)
  , attempted := r.attempted ++ [t.task_id] }

/-- `enqueue_fanout` — src/services/fanout.py lines 29-104.
`queue_outcome` is the delayed-task queue's response to each task name;
`get_tasks_client` is the (fallible) acquisition of the Cloud Tasks client,
which happens only after the service-URL guard. An unset
`settings.cloud_run_service_url` is the empty string (its default in
src/config/settings.py), and Python truthiness makes the guard fire on it. -/
def enqueue_fanout (cloud_run_service_url : String)
    (get_tasks_client : Except String Unit)
    (video_id channel_id : String) (published_at : Int)
    (queue_outcome : String → CreateOutcome) : Except String FanoutReport :=
  if cloud_run_service_url = "" then
    Except.ok { ok := 0, failed := 0, attempted := [] }
  else
    match get_tasks_client with
    | Except.error e => Except.error e
    | Except.ok _ =>
      let base_url := rstrip_slash cloud_run_service_url
      let plan := fanout_plan base_url video_id channel_id published_at
      Except.ok (plan.foldl (fanout_step queue_outcome)
        { ok := 0, failed := 0, attempted := [] })

/-! ## Discovery engine — src/engines/discovery.py -/

/-- The string value `InactiveReason.MONITORING_WINDOW_EXPIRED` — the
"window-expired" reason of the spec. -/
def monitoring_window_expired : String := "monitoring_window_expired"

/-- One row of the `video_monitoring` table (src/models/monitoring.py),
restricted to the columns touched by the discovery engine. -/
structure MonitoringRow where
  video_id : String
  channel_id : String
  published_at : Int
  discovered_at : Int
  monitoring_until : Int
  first_seen_at : Int
  is_active : Bool
  inactive_reason : Option String
deriving Repr, DecidableEq

/-- `DiscoveryEngine.register_video` — the MERGE on `video_id` with only a
`WHEN NOT MATCHED THEN INSERT` clause, applied to the table state.
`run_merge` returns the number of affected rows; `is_new = affected > 0`.
Returns `(is_new, table after the merge)`. -/
def register_video (table : List MonitoringRow) (monitoring_window_hours : Int)
    (now : Int) (video_id channel_id : String) (published_at : Int) :
    Bool × List MonitoringRow :=
  let monitoring_until := add_hours published_at monitoring_window_hours
  let matched := table.any (fun r => r.video_id = video_id)
  let affected : Nat := if matched then 0 else 1
  let table' :=
    if matched then table
    else table ++
      [{ video_id := video_id
       , channel_id := channel_id
       , published_at := published_at
       , discovered_at := now
       , monitoring_until := monitoring_until
       , first_seen_at := now
       , is_active := true
       , inactive_reason := none }]
  (affected > 0, table')

/-- The per-row effect of `DiscoveryEngine.expire_monitoring`'s UPDATE:
rows that are active with `monitoring_until < CURRENT_TIMESTAMP()` become
inactive with reason `monitoring_window_expired`; other rows are untouched. -/
def expire_row (now : Int) (r : MonitoringRow) : MonitoringRow :=
  if r.is_active && decide (r.monitoring_until < now) then
    { r with is_active := false, inactive_reason := some monitoring_window_expired }
  else r

/-- `DiscoveryEngine.expire_monitoring` — the UPDATE applied to the table
state at time `now`; returns `(rows affected, table after the update)`. -/
def expire_monitoring (table : List MonitoringRow) (now : Int) :
    Nat × List MonitoringRow :=
  ( table.countP (fun r => r.is_active && decide (r.monitoring_until < now))
  , table.map (expire_row now) )

/-! ## Shared transform helpers — src/engines/transforms/base.py -/

/-- Python `int(s)` on a stripped string: an optional sign followed by at least
one digit (the grammar exercised by YouTube's numeric stat strings). -/
def parse_int_string : List Char → Option Int
  | [] => none
  | '-' :: ds =>
    if ds ≠ [] && ds.all Char.isDigit then
      some (-(ds.foldl (fun n c => 10 * n + ((c.toNat - 48 : Nat) : Int)) (0 : Int)))
    else none
  | '+' :: ds =>
    if ds ≠ [] && ds.all Char.isDigit then
      some (ds.foldl (fun n c => 10 * n + ((c.toNat - 48 : Nat) : Int)) (0 : Int))
    else none
  | ds =>
    if ds.all Char.isDigit then
      some (ds.foldl (fun n c => 10 * n + ((c.toNat - 48 : Nat) : Int)) (0 : Int))
    else none

/-- Python `str.strip()` — drop whitespace from both ends. -/
def py_strip (s : String) : String :=
  String.mk
    (((s.toList.dropWhile Char.isWhitespace).reverse.dropWhile
      Char.isWhitespace).reverse)

/-- `safe_int` — parse YouTube's string-typed stats; missing/empty/unparseable
input yields `none`, never an exception. -/
def safe_int (value : Option String) : Option Int :=
  match value with
  | none => none
  | some s =>
    let s := py_strip s
    if s = "" then none
    else parse_int_string s.toList

/-! ## SQL-text escaping helpers -/

/-- Replace every occurrence of the character `c` by the character list `rep`
(Python `str.replace` for a single-character pattern). -/
def replace_char (c : Char) (rep : List Char) : List Char → List Char
  | [] => []
  | x :: xs =>
    if x = c then rep ++ replace_char c rep xs
    else x :: replace_char c rep xs

/-- `_esc` from src/engines/transforms/videos.py (lines 217-218):
escapes only backslash and single-quote. -/
def videos_esc (value : String) : String :=
  String.mk
    (replace_char '\x27' ['\\', '\x27']
      (replace_char '\\' ['\\', '\\'] value.toList))

/-- `_esc` from src/engines/transforms/comments.py (lines 220-221):
escapes backslash, single-quote, newline, and carriage return. -/
def comments_esc (value : String) : String :=
  String.mk
    (replace_char '\r' ['\\', 'r']
      (replace_char '\n' ['\\', 'n']
        (replace_char '\x27' ['\\', '\x27']
          (replace_char '\\' ['\\', '\\'] value.toList))))

/-- `_sql_str` from src/engines/transforms/videos.py: NULL for `None`,
otherwise the escaped value wrapped in single quotes. -/
def videos_sql_str (value : Option String) : String :=
  match value with
  | none => "NULL"
  | some v => "\x27" ++ videos_esc v ++ "\x27"

/-! ## Snapshot transformer — src/engines/transforms/snapshots.py -/

/-- `VideoStatistics` from src/models/raw.py — stats arrive as strings. -/
structure VideoStatistics where
  viewCount : Option String
  likeCount : Option String
  commentCount : Option String
deriving Repr, DecidableEq

/-- The columns of `fact_video_snapshot` read back by `_get_previous_snapshot`,
together with the `actual_captured_at` ordering key. -/
structure StoredSnapshotRow where
  video_id : String
  actual_captured_at : Int
  view_count : Option Int
  like_count : Option Int
  comment_count : Option Int
deriving Repr, DecidableEq

/-- `_get_previous_snapshot` — `SELECT view_count, like_count, comment_count ...
WHERE video_id = ... ORDER BY actual_captured_at DESC LIMIT 1`; `none` when the
video has no stored snapshot. Ties on the ordering key keep the earliest-listed
row (the SQL order among ties is unspecified). -/
def get_previous_snapshot (table : List StoredSnapshotRow) (video_id : String) :
    Option StoredSnapshotRow :=
  (table.filter (fun r => r.video_id = video_id)).foldl
    (fun best r =>
      match best with
      | none => some r
      | some b => if r.actual_captured_at > b.actual_captured_at then some r else some b)
    none

/-- Python `round(x, 2)` modelled as exact rounding to hundredths (Python's
float half-to-even rounding can differ only on exact half-hundredth values). -/
def round2 (x : ℚ) : ℚ :=
  ((round (x * 100) : ℤ) : ℚ) / 100

/-- The `fact_video_snapshot` row built by `SnapshotTransformer.transform`. -/
structure FactVideoSnapshot where
  snapshot_type : String
  video_id : String
  channel_id : String
  view_count : Option Int
  like_count : Option Int
  comment_count : Option Int
  views_delta : Option Int
  likes_delta : Option Int
  comments_delta : Option Int
  hours_since_publish : Nat
  actual_hours_since_publish : ℚ
  days_since_publish : Int
deriving Repr, DecidableEq

/-- `SnapshotTransformer.transform` (lines 29-93): parse the string stats with
`safe_int`, look up the previous stored snapshot for the video, compute each
delta only when both the current and the previous counter are non-null
(otherwise the delta stays `None`), and build the row. `stats` is
`item.statistics` (absent statistics leave every counter `None`). -/
def snapshot_transform (table : List StoredSnapshotRow)
    (stats : Option VideoStatistics) (video_id channel_id : String)
    (interval_hours : Nat) (published_at captured_at : Int) : FactVideoSnapshot :=
  let view_count := match stats with | some s => safe_int s.viewCount | none => none
  let like_count := match stats with | some s => safe_int s.likeCount | none => none
  let comment_count := match stats with | some s => safe_int s.commentCount | none => none
  let prev := get_previous_snapshot table video_id
  let views_delta := match prev with
    | none => none
    | some p => match view_count, p.view_count with
      | some c, some q => some (c - q)
      | _, _ => none
  let likes_delta := match prev with
    | none => none
    | some p => match like_count, p.like_count with
      | some c, some q => some (c - q)
      | _, _ => none
  let comments_delta := match prev with
    | none => none
    | some p => match comment_count, p.comment_count with
      | some c, some q => some (c - q)
      | _, _ => none
  { snapshot_type := interval_to_snapshot_type interval_hours
  , video_id := video_id
  , channel_id := channel_id
  , view_count := view_count
  , like_count := like_count
  , comment_count := comment_count
  , views_delta := views_delta
  , likes_delta := likes_delta
  , comments_delta := comments_delta
  , hours_since_publish := interval_hours
  , actual_hours_since_publish := round2 (hours_since published_at captured_at)
  , days_since_publish := days_since published_at captured_at }

/-! ## Comment transformer — src/engines/transforms/comments.py -/

/-- `CommentSnippet` from src/models/raw.py, the fields `_flatten_threads`
reads. `authorChannelId` is a string-keyed dict; we keep its "value" entry.
ISO timestamps are carried as their source strings. -/
structure RawCommentSnippet where
  authorChannelIdValue : Option String
  authorDisplayName : Option String
  textDisplay : Option String
  likeCount : Option Int
  publishedAt : Option String
  updatedAt : Option String
deriving Repr, DecidableEq

/-- `Comment` from src/models/raw.py. -/
structure RawComment where
  id : String
  snippet : Option RawCommentSnippet
deriving Repr, DecidableEq

/-- `CommentThreadSnippet` from src/models/raw.py. -/
structure RawCommentThreadSnippet where
  topLevelComment : Option RawComment
  totalReplyCount : Option Int
deriving Repr, DecidableEq

/-- `CommentThread` from src/models/raw.py. `replies` models the optional
replies dict's "comments" list; a missing dict or a dict without the
"comments" key are both `none` (both are skipped by the source's
`if thread.replies and "comments" in thread.replies`). -/
structure RawCommentThread where
  snippet : Option RawCommentThreadSnippet
  replies : Option (List RawComment)
deriving Repr, DecidableEq

/-- The `fact_comment` row built by `_flatten_threads`
(`FactComment` in src/models/facts.py; timestamps kept as source strings). -/
structure FactComment where
  comment_id : String
  video_id : String
  channel_id : String
  parent_comment_id : Option String
  is_reply : Bool
  commenter_channel_id : Option String
  commenter_name : Option String
  comment_text : Option String
  like_count : Option Int
  reply_count : Option Int
  published_at : Option String
  updated_at : Option String
  sample_strategy : String
  sample_rank : Option Nat
deriving Repr, DecidableEq

/-- The rows `_flatten_threads` emits for one thread at a given enumeration
rank: nothing when the thread has no usable top-level comment; otherwise the
top-level row (carrying the rank) followed by one row per reply that has a
snippet (rank `None`, parent set to the top-level comment's id). -/
def flatten_one_thread (video_id channel_id sample_strategy : String)
    (rank : Nat) (thread : RawCommentThread) : List FactComment :=
  match thread.snippet with
  | none => []
  | some tsnip =>
    match tsnip.topLevelComment with
    | none => []
    | some top =>
      match top.snippet with
      | none => []
      | some tops =>
        let top_row : FactComment :=
          { comment_id := top.id
          , video_id := video_id
          , channel_id := channel_id
          , parent_comment_id := none
          , is_reply := false
          , commenter_channel_id := tops.authorChannelIdValue
          , commenter_name := tops.authorDisplayName
          , comment_text := tops.textDisplay
          , like_count := tops.likeCount
          , reply_count := tsnip.totalReplyCount
          , published_at := tops.publishedAt
          , updated_at := tops.updatedAt
          , sample_strategy := sample_strategy
          , sample_rank := some rank }
        let reply_rows :=
          match thread.replies with
          | none => []
          | some comments =>
            comments.filterMap (fun rc =>
              match rc.snippet with
              | none => none
              | some rs => some
                { comment_id := rc.id
                , video_id := video_id
                , channel_id := channel_id
                , parent_comment_id := some top.id
                , is_reply := true
                , commenter_channel_id := rs.authorChannelIdValue
                , commenter_name := rs.authorDisplayName
                , comment_text := rs.textDisplay
                , like_count := rs.likeCount
                , reply_count := some 0
                , published_at := rs.publishedAt
                , updated_at := rs.updatedAt
                , sample_strategy := sample_strategy
                , sample_rank := none })
        top_row :: reply_rows

/-- The loop of `_flatten_threads`: `for rank, thread in enumerate(threads,
start=1)`, emitting `flatten_one_thread` at each rank. Skipped threads still
consume their rank. -/
def flatten_threads_from (video_id channel_id sample_strategy : String) :
    Nat → List RawCommentThread → List FactComment
  | _, [] => []
  | rank, t :: ts =>
    flatten_one_thread video_id channel_id sample_strategy rank t
      ++ flatten_threads_from video_id channel_id sample_strategy (rank + 1) ts

/-- `CommentTransformer._flatten_threads` — ranks start at 1. -/
def flatten_threads (threads : List RawCommentThread)
    (video_id channel_id sample_strategy : String) : List FactComment :=
  flatten_threads_from video_id channel_id sample_strategy 1 threads

/-! ## Text utilities — src/utils/text.py -/

/-- Splitting on whitespace runs: accumulate the current word (reversed) and
emit it at each whitespace boundary. -/
def split_words_aux : List Char → List Char → List String
  | [], acc => if acc = [] then [] else [String.mk acc.reverse]
  | c :: cs, acc =>
    if Char.isWhitespace c then
      if acc = [] then split_words_aux cs []
      else String.mk acc.reverse :: split_words_aux cs []
    else split_words_aux cs (c :: acc)

/-- Python `text.split()` — maximal whitespace-separated chunks, no empties. -/
def py_split (text : String) : List String :=
  split_words_aux text.toList []

/-- `word_count(text) = len(text.split())`. -/
def word_count (text : String) : Nat :=
  (py_split text).length

/-- Python `string.punctuation` as a character list (codes 33-47, 58-64,
91-96, 123-126). -/
def python_punctuation : List Char :=
  [33, 34, 35, 36, 37, 38, 39, 40, 41, 42, 43, 44, 45, 46, 47,
   58, 59, 60, 61, 62, 63, 64, 91, 92, 93, 94, 95, 96,
   123, 124, 125, 126].map Char.ofNat

/-- Python `s.strip(chars)` — drop the given characters from both ends. -/
def strip_chars (chars : List Char) (s : List Char) : List Char :=
  ((s.dropWhile (fun c => chars.contains c)).reverse.dropWhile
    (fun c => chars.contains c)).reverse

/-- `_count_syllables` — lowercase, strip punctuation, count vowel-group
starts, drop a trailing silent "e", floor at 1. -/
def count_syllables (w : String) : Nat :=
  let word := strip_chars python_punctuation (w.toList.map Char.toLower)
  if word = [] then 1
  else
    let vowels : List Char := ['a', 'e', 'i', 'o', 'u', 'y']
    let count := (word.foldl
      (fun (st : Nat × Bool) c =>
        let is_vowel := vowels.contains c
        (if is_vowel && !st.2 then st.1 + 1 else st.1, is_vowel))
      (0, false)).1
    let count := if word.getLast? = some 'e' && count > 1 then count - 1 else count
    max 1 count

/-- `flesch_kincaid_grade` — the source's float arithmetic carried out
exactly in ℚ. -/
def flesch_kincaid_grade (text : String) : ℚ :=
  let words := py_split text
  if words = [] then 0
  else
    let sentences : ℚ := max 1 ((text.toList.countP
      (fun c => c = '.' || c = '!' || c = '?') : Nat) : ℚ)
    let syllables : ℚ := (((words.map count_syllables).sum : Nat) : ℚ)
    let word_ct : ℚ := ((words.length : Nat) : ℚ)
    39 / 100 * (word_ct / sentences) + 118 / 10 * (syllables / word_ct) - 1559 / 100

/-! ## Transcript transformer and handler —
src/engines/transforms/transcripts.py, src/services/snapshot_handler.py -/

/-- The `dim_video_transcript` row built by `TranscriptTransformer.transform`. -/
structure DimVideoTranscript where
  video_id : String
  transcript_source : String
  gcs_uri : String
  word_count : Nat
  fetched_at : Int
  topic_keywords : List String
  readability_score : ℚ
  has_profanity : Option Bool
deriving Repr, DecidableEq

/-- `TranscriptTransformer.transform` — always builds and merges one row
(there is no emptiness guard in the transformer itself). -/
def transcript_transform (transcript_text : String) (video_id gcs_uri : String)
    (fetched_at : Int) : DimVideoTranscript :=
  { video_id := video_id
  , transcript_source := "auto_generated"
  , gcs_uri := gcs_uri
  , word_count := word_count transcript_text
  , fetched_at := fetched_at
  , topic_keywords := []
  , readability_score := flesch_kincaid_grade transcript_text
  , has_profanity := none }

/-- `GCSPathBuilder.video_transcript(video_id)` with the default language. -/
def video_transcript_path (video_id : String) : String :=
  "video_transcripts/" ++ video_id ++ "/" ++ video_id ++ "_en.txt"

/-- What one invocation of the transcript task handler did: HTTP status,
blob-store writes (path, text), and `dim_video_transcript` rows merged. -/
structure TranscriptHandlerResult where
  status : Nat
  blob_writes : List (String × String)
  rows_merged : List DimVideoTranscript
deriving Repr, DecidableEq

/-- `handle_transcript` — src/services/snapshot_handler.py lines 107-132.
`fetch_result` is `yt.fetch_transcript(video_id)` (`None` when unavailable).
Only `None` short-circuits; any returned string — including the empty
string — is uploaded to the blob store and transformed into a row. -/
def handle_transcript (video_id : String) (fetch_result : Option String)
    (bucket_name : String) (fetched_at : Int) : TranscriptHandlerResult :=
  match fetch_result with
  | none => { status := 200, blob_writes := [], rows_merged := [] }
  | some transcript_text =>
    let path := video_transcript_path video_id
    let gcs_uri := "gs://" ++ bucket_name ++ "/" ++ path
    { status := 200
    , blob_writes := [(path, transcript_text)]
    , rows_merged := [transcript_transform transcript_text video_id gcs_uri fetched_at] }

/-! ## Webhook notify handler — src/services/webhook.py -/

/-- The POST body of a push notification, after the parsing stages the
handler distinguishes: empty body; XML that fails to parse; a parsed feed
with no `entry` element; an entry missing the videoId/channelId elements;
an entry whose ids strip to empty; or a full entry (with optional
`published` timestamp). -/
inductive WebhookBody
  | empty
  | malformed
  | feedPing
  | entryMissingIds
  | entryBlankIds
  | entry (video_id channel_id : String) (published_at : Option Int)
deriving Repr, DecidableEq

/-- The collaborator calls `webhook_notify` makes after parsing, each of
which can raise (modelled as `Except.error`): the `is_video_registered`
query, the `register_video` merge, and the fan-out enqueue. -/
structure WebhookCollaborators where
  is_video_registered : String → Except String Bool
  register_video : String → String → Int → Except String Bool
  fanout : String → String → Int → Except String Unit

/-- What the framework sees from one `webhook_notify` invocation: an HTTP
response, or an exception that escaped the handler (FastAPI turns it into
a 500 error response). -/
inductive HandlerOutcome
  | response (status : Nat)
  | raised (e : String)
deriving Repr, DecidableEq

/-- `webhook_notify` — src/services/webhook.py lines 38-93. All parse-stage
failures return 200; the registration/fan-out stage has no exception
handler, so a collaborator exception propagates out of the handler. -/
def webhook_notify (body : WebhookBody) (collab : WebhookCollaborators)
    (now : Int) : HandlerOutcome :=
  match body with
  | WebhookBody.empty => HandlerOutcome.response 200
  | WebhookBody.malformed => HandlerOutcome.response 200
  | WebhookBody.feedPing => HandlerOutcome.response 200
  | WebhookBody.entryMissingIds => HandlerOutcome.response 200
  | WebhookBody.entryBlankIds => HandlerOutcome.response 200
  | WebhookBody.entry video_id channel_id published_at =>
    let published := published_at.getD now
    match collab.is_video_registered video_id with
    | Except.error e => HandlerOutcome.raised e
    | Except.ok true => HandlerOutcome.response 200
    | Except.ok false =>
      match collab.register_video video_id channel_id published with
      | Except.error e => HandlerOutcome.raised e
      | Except.ok false => HandlerOutcome.response 200
      | Except.ok true =>
        match collab.fanout video_id channel_id published with
        | Except.error e => HandlerOutcome.raised e
        | Except.ok _ => HandlerOutcome.response 200

/-! ## Helper lemmas -/

/-- Every loop iteration of `enqueue_fanout` attempts its task and adds exactly
one to `ok + failed`, regardless of the queue's outcomes. -/
theorem fanout_foldl_attempts (f : String → CreateOutcome) (l : List PlannedTask)
    (r : FanoutReport) :
    (l.foldl (fanout_step f) r).attempted = r.attempted ++ l.map PlannedTask.task_id ∧
    (l.foldl (fanout_step f) r).ok + (l.foldl (fanout_step f) r).failed
      = r.ok + r.failed + l.length := by
  induction l generalizing r with
  | nil => simp
  | cons t ts ih =>
    rw [List.foldl_cons]
    refine ⟨?_, ?_⟩
    · rw [(ih (fanout_step f r t)).1]
      simp [fanout_step]
    · rw [(ih (fanout_step f r t)).2]
      simp only [fanout_step, List.length_cons]
      cases h : f t.task_id <;> simp [create_task] <;> omega

/-- When no task outcome is a non-duplicate failure, the fan-out loop counts
every task as ok. -/
theorem fanout_foldl_all_ok (f : String → CreateOutcome) (l : List PlannedTask)
    (r : FanoutReport) (h : ∀ t ∈ l, f t.task_id ≠ CreateOutcome.failure) :
    l.foldl (fanout_step f) r
      = { ok := r.ok + l.length
        , failed := r.failed
        , attempted := r.attempted ++ l.map PlannedTask.task_id } := by
  induction l generalizing r with
  | nil => simp
  | cons t ts ih =>
    rw [List.foldl_cons, ih _ (fun x hx => h x (List.mem_cons_of_mem _ hx))]
    have h1 : create_task (f t.task_id) = 1 := by
      cases hf : f t.task_id
      · rfl
      · rfl
      · exact absurd hf (h t (List.mem_cons_self t ts))
    simp only [fanout_step, h1, FanoutReport.mk.injEq, List.length_cons,
      List.map_cons, Nat.sub_self, Nat.add_zero, List.append_assoc,
      List.singleton_append]
    refine ⟨by omega, ?_⟩
    simp

/-- Every fan-out plan has exactly 20 tasks. -/
theorem fanout_plan_length (base_url video_id channel_id : String)
    (published_at : Int) :
    (fanout_plan base_url video_id channel_id published_at).length = 20 := rfl

/-! ## Claim theorems -/

/-- C9: when the configured service URL setting is unset (the empty-string
default of `Settings.cloud_run_service_url`), `enqueue_fanout` returns
immediately: no task is attempted, no ok/failed counts accrue, and nothing is
raised even if acquiring the Cloud Tasks client would have failed. -/
theorem enqueue_fanout_unset_url_is_noop (get_tasks_client : Except String Unit)
    (video_id channel_id : String) (published_at : Int)
    (queue_outcome : String → CreateOutcome) :
    enqueue_fanout "" get_tasks_client video_id channel_id published_at queue_outcome
      = Except.ok { ok := 0, failed := 0, attempted := [] } := rfl

/-- C1 counterexample: at a concrete video, the fan-out scheduler's plan has
20 tasks of which 17 are snapshots — not 15 tasks with 12 snapshots as the
claim states — and an all-accepting queue is reported 20 ok, not 15. -/
theorem fanout_plan_is_not_fifteen_tasks :
    ¬ ((fanout_plan "https://svc" "dQw4w9WgXcQ" "UCabc" 0).length = 15 ∧
       (fanout_plan "https://svc" "dQw4w9WgXcQ" "UCabc" 0).countP
         (fun t => t.kind == TaskKind.snapshot) = 12) ∧
    enqueue_fanout "https://svc" (Except.ok ()) "dQw4w9WgXcQ" "UCabc" 0
        (fun _ => CreateOutcome.created)
      = Except.ok
        { ok := 20
        , failed := 0
        , attempted := (fanout_plan "https://svc" "dQw4w9WgXcQ" "UCabc" 0).map
            PlannedTask.task_id } := by
  exact ⟨by decide, rfl⟩

/-- C1 amended: for every newly discovered video, the fan-out scheduler
attempts exactly 20 tasks — 17 snapshot tasks, 2 comment tasks, and 1
transcript task — and, when the delayed-task queue accepts every creation,
reports 20 tasks ok and 0 failed. -/
theorem enqueue_fanout_attempts_twenty (url video_id channel_id : String)
    (published_at : Int) (h : url ≠ "") :
    enqueue_fanout url (Except.ok ()) video_id channel_id published_at
        (fun _ => CreateOutcome.created)
      = Except.ok
        { ok := 20
        , failed := 0
        , attempted := (fanout_plan (rstrip_slash url) video_id channel_id
            published_at).map PlannedTask.task_id } ∧
    (fanout_plan (rstrip_slash url) video_id channel_id published_at).length = 20 ∧
    (fanout_plan (rstrip_slash url) video_id channel_id published_at).countP
      (fun t => t.kind == TaskKind.snapshot) = 17 ∧
    (fanout_plan (rstrip_slash url) video_id channel_id published_at).countP
      (fun t => t.kind == TaskKind.comments) = 2 ∧
    (fanout_plan (rstrip_slash url) video_id channel_id published_at).countP
      (fun t => t.kind == TaskKind.transcript) = 1 := by
  refine ⟨?_, rfl, rfl, rfl, rfl⟩
  unfold enqueue_fanout
  rw [if_neg h]
  show Except.ok ((fanout_plan (rstrip_slash url) video_id channel_id
      published_at).foldl (fanout_step (fun _ => CreateOutcome.created))
      { ok := 0, failed := 0, attempted := [] }) = _
  rw [fanout_foldl_all_ok _ _ _ (fun t _ => by decide)]
  simp [fanout_plan_length]

/-- Witness for the C1 amended theorem at a concrete video. -/
theorem enqueue_fanout_attempts_twenty_witness :
    enqueue_fanout "https://svc" (Except.ok ()) "dQw4w9WgXcQ" "UCabc" 0
        (fun _ => CreateOutcome.created)
      = Except.ok
        { ok := 20
        , failed := 0
        , attempted := (fanout_plan (rstrip_slash "https://svc") "dQw4w9WgXcQ" "UCabc"
            0).map PlannedTask.task_id } ∧
    (fanout_plan (rstrip_slash "https://svc") "dQw4w9WgXcQ" "UCabc" 0).length = 20 ∧
    (fanout_plan (rstrip_slash "https://svc") "dQw4w9WgXcQ" "UCabc" 0).countP
      (fun t => t.kind == TaskKind.snapshot) = 17 ∧
    (fanout_plan (rstrip_slash "https://svc") "dQw4w9WgXcQ" "UCabc" 0).countP
      (fun t => t.kind == TaskKind.comments) = 2 ∧
    (fanout_plan (rstrip_slash "https://svc") "dQw4w9WgXcQ" "UCabc" 0).countP
      (fun t => t.kind == TaskKind.transcript) = 1 :=
  enqueue_fanout_attempts_twenty "https://svc" "dQw4w9WgXcQ" "UCabc" 0 (by decide)

/-- C6: the task identifiers of a fan-out plan depend only on the video id
(and each task's kind and interval) — two scheduling runs for the same video
produce the same identifiers even with different URLs, channels or publish
times; a queue that rejects every name as a duplicate (`AlreadyExists`) still
yields a 100% ok report; and under arbitrary per-task outcomes the scheduler
attempts every task in the plan, with ok + failed = 20. -/
theorem fanout_dedup_and_isolated_failure
    (url other_url video_id channel_id other_channel : String)
    (published_at other_published : Int) (f : String → CreateOutcome)
    (h : url ≠ "") :
    ((fanout_plan other_url video_id other_channel other_published).map
        PlannedTask.task_id
      = (fanout_plan (rstrip_slash url) video_id channel_id published_at).map
        PlannedTask.task_id) ∧
    (enqueue_fanout url (Except.ok ()) video_id channel_id published_at
        (fun _ => CreateOutcome.alreadyExists)
      = Except.ok
        { ok := 20
        , failed := 0
        , attempted := (fanout_plan (rstrip_slash url) video_id channel_id
            published_at).map PlannedTask.task_id }) ∧
    (∃ r, enqueue_fanout url (Except.ok ()) video_id channel_id published_at f
        = Except.ok r ∧
      r.attempted = (fanout_plan (rstrip_slash url) video_id channel_id
        published_at).map PlannedTask.task_id ∧
      r.ok + r.failed = 20) := by
  refine ⟨rfl, ?_, ?_⟩
  · unfold enqueue_fanout
    rw [if_neg h]
    show Except.ok ((fanout_plan (rstrip_slash url) video_id channel_id
        published_at).foldl (fanout_step (fun _ => CreateOutcome.alreadyExists))
        { ok := 0, failed := 0, attempted := [] }) = _
    rw [fanout_foldl_all_ok _ _ _ (fun t _ => by decide)]
    simp [fanout_plan_length]
  · refine ⟨(fanout_plan (rstrip_slash url) video_id channel_id published_at).foldl
      (fanout_step f) { ok := 0, failed := 0, attempted := [] }, ?_, ?_, ?_⟩
    · unfold enqueue_fanout
      rw [if_neg h]
    · rw [(fanout_foldl_attempts f _ _).1]
      rfl
    · rw [(fanout_foldl_attempts f _ _).2]
      rw [fanout_plan_length]
      rfl

/-- Witness for the C6 theorem: a concrete video with a queue that fails one
specific task and rejects the rest as duplicates. -/
theorem fanout_dedup_and_isolated_failure_witness :
    ((fanout_plan "http://other" "dQw4w9WgXcQ" "UCother" 7).map PlannedTask.task_id
      = (fanout_plan (rstrip_slash "https://svc") "dQw4w9WgXcQ" "UCabc" 0).map
        PlannedTask.task_id) ∧
    (enqueue_fanout "https://svc" (Except.ok ()) "dQw4w9WgXcQ" "UCabc" 0
        (fun _ => CreateOutcome.alreadyExists)
      = Except.ok
        { ok := 20
        , failed := 0
        , attempted := (fanout_plan (rstrip_slash "https://svc") "dQw4w9WgXcQ" "UCabc"
            0).map PlannedTask.task_id }) ∧
    (∃ r, enqueue_fanout "https://svc" (Except.ok ()) "dQw4w9WgXcQ" "UCabc" 0
        (fun s => if s = "dQw4w9WgXcQ-snapshot-4h" then CreateOutcome.failure
          else CreateOutcome.alreadyExists)
        = Except.ok r ∧
      r.attempted = (fanout_plan (rstrip_slash "https://svc") "dQw4w9WgXcQ" "UCabc"
        0).map PlannedTask.task_id ∧
      r.ok + r.failed = 20) :=
  fanout_dedup_and_isolated_failure "https://svc" "http://other" "dQw4w9WgXcQ"
    "UCabc" "UCother" 0 7
    (fun s => if s = "dQw4w9WgXcQ-snapshot-4h" then CreateOutcome.failure
      else CreateOutcome.alreadyExists)
    (by decide)

/-- A row produced by `expire_row` never satisfies the expiry condition again. -/
theorem expire_row_not_expirable (now : Int) (r : MonitoringRow) :
    ((expire_row now r).is_active
      && decide ((expire_row now r).monitoring_until < now)) = false := by
  unfold expire_row
  by_cases hc : (r.is_active && decide (r.monitoring_until < now)) = true
  · rw [if_pos hc]
    simp
  · rw [if_neg hc]
    simpa using hc

/-- `expire_row` is idempotent. -/
theorem expire_row_idem (now : Int) (r : MonitoringRow) :
    expire_row now (expire_row now r) = expire_row now r := by
  by_cases hc : (r.is_active && decide (r.monitoring_until < now)) = true
  · have h1 : expire_row now r
        = { r with is_active := false, inactive_reason := some monitoring_window_expired } := by
      unfold expire_row
      rw [if_pos hc]
    rw [h1]
    unfold expire_row
    rw [if_neg]
    simp
  · have h1 : expire_row now r = r := by
      unfold expire_row
      rw [if_neg hc]
    rw [h1, h1]

/-- C2: registering the same video twice with identical arguments (whatever
the wall-clock time of each call) returns true then false, leaves exactly one
`video_monitoring` row for that video id, and the second call does not modify
the table at all. -/
theorem register_video_true_then_false (table : List MonitoringRow)
    (window now1 now2 published_at : Int) (video_id channel_id : String)
    (h : ∀ r ∈ table, r.video_id ≠ video_id) :
    (register_video table window now1 video_id channel_id published_at).1 = true ∧
    (register_video (register_video table window now1 video_id channel_id
        published_at).2 window now2 video_id channel_id published_at).1 = false ∧
    (register_video (register_video table window now1 video_id channel_id
        published_at).2 window now2 video_id channel_id published_at).2
      = (register_video table window now1 video_id channel_id published_at).2 ∧
    ((register_video table window now1 video_id channel_id published_at).2.countP
      (fun r => r.video_id == video_id)) = 1 := by
  have hmatch : table.any (fun r => r.video_id = video_id) = false := by
    simp only [List.any_eq_false, decide_eq_true_eq]
    exact h
  have hcount0 : table.countP (fun r => r.video_id == video_id) = 0 := by
    rw [List.countP_eq_zero]
    intro a ha
    simpa using h a ha
  refine ⟨?_, ?_, ?_, ?_⟩
  · simp [register_video, hmatch]
  · simp [register_video, hmatch, List.any_append]
  · simp [register_video, hmatch, List.any_append]
  · simp [register_video, hmatch, List.countP_append, hcount0]

/-- Witness for the C2 theorem on an initially empty table. -/
theorem register_video_true_then_false_witness :
    (register_video [] 72 10 "dQw4w9WgXcQ" "UCabc" 20).1 = true ∧
    (register_video (register_video [] 72 10 "dQw4w9WgXcQ" "UCabc" 20).2
      72 99 "dQw4w9WgXcQ" "UCabc" 20).1 = false ∧
    (register_video (register_video [] 72 10 "dQw4w9WgXcQ" "UCabc" 20).2
      72 99 "dQw4w9WgXcQ" "UCabc" 20).2
      = (register_video [] 72 10 "dQw4w9WgXcQ" "UCabc" 20).2 ∧
    ((register_video [] 72 10 "dQw4w9WgXcQ" "UCabc" 20).2.countP
      (fun r => r.video_id == "dQw4w9WgXcQ")) = 1 :=
  register_video_true_then_false [] 72 10 99 20 "dQw4w9WgXcQ" "UCabc"
    (by intro r hr; cases hr)

/-- C4 counterexample: a video whose duration-since-publish equals the window
exactly (`monitoring_until = now`) is NOT deactivated — `expire_monitoring`
affects 0 rows and the row stays active, although the claim's `d ≥ window`
requires deactivation here. -/
theorem expire_monitoring_boundary_not_deactivated :
    expire_monitoring
      [{ video_id := "dQw4w9WgXcQ", channel_id := "UCabc", published_at := 0
       , discovered_at := 0, monitoring_until := add_hours 0 72, first_seen_at := 0
       , is_active := true, inactive_reason := none }] (add_hours 0 72)
      = (0,
        [{ video_id := "dQw4w9WgXcQ", channel_id := "UCabc", published_at := 0
         , discovered_at := 0, monitoring_until := add_hours 0 72, first_seen_at := 0
         , is_active := true, inactive_reason := none }]) := by decide

/-- C4 amended: `expire_monitoring` deactivates a row (setting is_active false
with the window-expired reason) iff the row was active and its
`monitoring_until` lies strictly in the past — for a row with
`monitoring_until = published_at + window` that is `d > window`, strictly;
rows at `d = window` survive. The affected count counts exactly those rows,
and calling `expire_monitoring` again immediately is a no-op returning 0. -/
theorem expire_monitoring_strict_and_idempotent (table : List MonitoringRow)
    (now window : Int) :
    (expire_monitoring table now).2 = table.map (expire_row now) ∧
    (expire_monitoring table now).1
      = table.countP (fun r => r.is_active && decide (r.monitoring_until < now)) ∧
    (∀ r : MonitoringRow, r.monitoring_until = add_hours r.published_at window →
      ((r.is_active && decide (r.monitoring_until < now)) = true
        ↔ (r.is_active = true ∧ 3600 * window < now - r.published_at))) ∧
    (∀ r : MonitoringRow, r.is_active = true → r.monitoring_until < now →
      expire_row now r
        = { r with is_active := false, inactive_reason := some monitoring_window_expired }) ∧
    (∀ r : MonitoringRow, ¬(r.is_active = true ∧ r.monitoring_until < now) →
      expire_row now r = r) ∧
    expire_monitoring (expire_monitoring table now).2 now
      = (0, (expire_monitoring table now).2) := by
  refine ⟨rfl, rfl, ?_, ?_, ?_, ?_⟩
  · intro r hr
    rw [hr]
    simp only [add_hours, Bool.and_eq_true, decide_eq_true_eq]
    constructor
    · rintro ⟨h1, h2⟩
      exact ⟨h1, by omega⟩
    · rintro ⟨h1, h2⟩
      exact ⟨h1, by omega⟩
  · intro r h1 h2
    unfold expire_row
    rw [if_pos]
    simp [h1, h2]
  · intro r hne
    unfold expire_row
    rw [if_neg]
    simpa [Bool.and_eq_true, decide_eq_true_eq] using hne
  · have hmap : (table.map (expire_row now)).map (expire_row now)
        = table.map (expire_row now) := by
      rw [List.map_map]
      apply List.map_congr_left
      intro a _
      exact expire_row_idem now a
    have hcount : (table.map (expire_row now)).countP
        (fun r => r.is_active && decide (r.monitoring_until < now)) = 0 := by
      rw [List.countP_eq_zero]
      intro a ha
      obtain ⟨b, _, rfl⟩ := List.mem_map.mp ha
      simp [expire_row_not_expirable]
    simp [expire_monitoring, hmap, hcount]

/-- Witness for the C4 amended theorem: a row one second past its window is
deactivated with the window-expired reason. -/
theorem expire_monitoring_strict_witness :
    expire_row 259201
      { video_id := "dQw4w9WgXcQ", channel_id := "UCabc", published_at := 0
      , discovered_at := 0, monitoring_until := 259200, first_seen_at := 0
      , is_active := true, inactive_reason := none }
      = { video_id := "dQw4w9WgXcQ", channel_id := "UCabc", published_at := 0
        , discovered_at := 0, monitoring_until := 259200, first_seen_at := 0
        , is_active := false
        , inactive_reason := some monitoring_window_expired } :=
  (expire_monitoring_strict_and_idempotent [] 259201 72).2.2.2.1
    { video_id := "dQw4w9WgXcQ", channel_id := "UCabc", published_at := 0
    , discovered_at := 0, monitoring_until := 259200, first_seen_at := 0
    , is_active := true, inactive_reason := none } rfl (by decide)

/-- C5: with a prior stored snapshot at 80,000,000 views and a payload at
82,949,853, the computed views_delta is 2,949,853; and whenever the video has
no prior stored snapshot, every delta is None (null), not 0. -/
theorem snapshot_deltas_prior_and_absent (table : List StoredSnapshotRow)
    (stats : VideoStatistics) (video_id channel_id : String)
    (interval_hours : Nat) (published_at captured_at : Int) :
    ((snapshot_transform
        [{ video_id := "QJI0an6irrA", actual_captured_at := 100
         , view_count := some 80000000, like_count := some 9000
         , comment_count := some 500 }]
        (some { viewCount := some "82949853", likeCount := some "9100"
              , commentCount := some "600" })
        "QJI0an6irrA" "UCabc" 24 0 86400).views_delta = some 2949853) ∧
    (get_previous_snapshot table video_id = none →
      (snapshot_transform table (some stats) video_id channel_id interval_hours
          published_at captured_at).views_delta = none ∧
      (snapshot_transform table (some stats) video_id channel_id interval_hours
          published_at captured_at).likes_delta = none ∧
      (snapshot_transform table (some stats) video_id channel_id interval_hours
          published_at captured_at).comments_delta = none) := by
  refine ⟨rfl, fun hprev => ?_⟩
  refine ⟨?_, ?_, ?_⟩ <;> simp [snapshot_transform, hprev]

/-- Witness for the C5 theorem: an empty snapshot table yields null deltas. -/
theorem snapshot_deltas_prior_and_absent_witness :
    (snapshot_transform ([] : List StoredSnapshotRow)
        (some { viewCount := some "5", likeCount := some "1"
              , commentCount := some "0" }) "x" "c" 1 0 3600).views_delta = none ∧
    (snapshot_transform ([] : List StoredSnapshotRow)
        (some { viewCount := some "5", likeCount := some "1"
              , commentCount := some "0" }) "x" "c" 1 0 3600).likes_delta = none ∧
    (snapshot_transform ([] : List StoredSnapshotRow)
        (some { viewCount := some "5", likeCount := some "1"
              , commentCount := some "0" }) "x" "c" 1 0 3600).comments_delta
      = none :=
  (snapshot_deltas_prior_and_absent []
    { viewCount := some "5", likeCount := some "1", commentCount := some "0" }
    "x" "c" 1 0 3600).2 rfl

/-- C3 (code bug): the video transform's `_esc` escapes the quote and the
backslash but leaves newline and carriage-return characters raw, so the title
`Don't miss it!` + newline + `Timestamps:` reaches the generated statement
with a literal unescaped newline — while the comment transform's `_esc`
escapes it as the spec and the repository's own tests require. -/
theorem videos_esc_leaves_newline_unescaped :
    videos_esc "Don\x27t miss it!\nTimestamps:\n0:00 Intro"
      = "Don\\\x27t miss it!\nTimestamps:\n0:00 Intro" ∧
    ((videos_esc "Don\x27t miss it!\nTimestamps:\n0:00 Intro").toList.contains '\n')
      = true ∧
    ((videos_sql_str (some "Don\x27t miss it!\nTimestamps:\n0:00 Intro")).toList.contains
      '\n') = true ∧
    comments_esc "Don\x27t miss it!\nTimestamps:\n0:00 Intro"
      = "Don\\\x27t miss it!\\nTimestamps:\\n0:00 Intro" := by decide

/-- C7 (code bug): the notify handler answers 200 for empty, malformed,
entry-less, and id-less notification bodies, but an exception raised by the
registration stage's warehouse call escapes the handler (there is no
try/except around it), surfacing as an error status instead of success. -/
theorem webhook_notify_surfaces_registration_failure :
    (webhook_notify (WebhookBody.entry "dQw4w9WgXcQ" "UCabc" (some 1726000000))
        { is_video_registered := fun _ => Except.error "bigquery transient failure"
        , register_video := fun _ _ _ => Except.ok true
        , fanout := fun _ _ _ => Except.ok () } 0
      = HandlerOutcome.raised "bigquery transient failure") ∧
    (webhook_notify WebhookBody.empty
        { is_video_registered := fun _ => Except.error "bigquery transient failure"
        , register_video := fun _ _ _ => Except.ok true
        , fanout := fun _ _ _ => Except.ok () } 0 = HandlerOutcome.response 200) ∧
    (webhook_notify WebhookBody.malformed
        { is_video_registered := fun _ => Except.error "bigquery transient failure"
        , register_video := fun _ _ _ => Except.ok true
        , fanout := fun _ _ _ => Except.ok () } 0 = HandlerOutcome.response 200) ∧
    (webhook_notify WebhookBody.feedPing
        { is_video_registered := fun _ => Except.error "bigquery transient failure"
        , register_video := fun _ _ _ => Except.ok true
        , fanout := fun _ _ _ => Except.ok () } 0 = HandlerOutcome.response 200) ∧
    (webhook_notify WebhookBody.entryMissingIds
        { is_video_registered := fun _ => Except.error "bigquery transient failure"
        , register_video := fun _ _ _ => Except.ok true
        , fanout := fun _ _ _ => Except.ok () } 0 = HandlerOutcome.response 200) ∧
    (webhook_notify (WebhookBody.entry "dQw4w9WgXcQ" "UCabc" (some 1726000000))
        { is_video_registered := fun _ => Except.ok false
        , register_video := fun _ _ _ => Except.error "merge failed"
        , fanout := fun _ _ _ => Except.ok () } 0
      = HandlerOutcome.raised "merge failed") :=
  ⟨rfl, rfl, rfl, rfl, rfl, rfl⟩

/-- C8 counterexample: when the collaborator returns the empty string (rather
than None), the transcript handler DOES write a blob and a warehouse row —
with word_count 0 — contradicting the claim that an empty-string result
writes nothing. -/
theorem handle_transcript_empty_string_writes_row :
    (handle_transcript "QJI0an6irrA" (some "") "you-predict-raw" 0).blob_writes
      = [("video_transcripts/QJI0an6irrA/QJI0an6irrA_en.txt", "")] ∧
    (handle_transcript "QJI0an6irrA" (some "") "you-predict-raw" 0).rows_merged
      = [{ video_id := "QJI0an6irrA", transcript_source := "auto_generated"
         , gcs_uri := "gs://you-predict-raw/video_transcripts/QJI0an6irrA/QJI0an6irrA_en.txt"
         , word_count := 0, fetched_at := 0, topic_keywords := []
         , readability_score := 0, has_profanity := none }] ∧
    (handle_transcript "QJI0an6irrA" (some "") "you-predict-raw" 0).rows_merged
      ≠ [] := by
  refine ⟨rfl, by decide, by decide⟩

/-- C8 amended: only a None fetch result (the collaborator's encoding of an
unavailable transcript) short-circuits with no blob write, no row and a 200
status; any returned string, the empty string included, is written to the
blob store and transformed into exactly one `dim_video_transcript` row. -/
theorem handle_transcript_none_short_circuits (video_id bucket : String)
    (fetched_at : Int) (t : String) :
    handle_transcript video_id none bucket fetched_at
      = { status := 200, blob_writes := [], rows_merged := [] } ∧
    (handle_transcript video_id (some t) bucket fetched_at).blob_writes
      = [(video_transcript_path video_id, t)] ∧
    (handle_transcript video_id (some t) bucket fetched_at).rows_merged
      = [transcript_transform t video_id
          ("gs://" ++ bucket ++ "/" ++ video_transcript_path video_id) fetched_at] ∧
    (handle_transcript video_id (some t) bucket fetched_at).status = 200 :=
  ⟨rfl, rfl, rfl, rfl⟩

/-- Whether `_flatten_threads` emits rows for a thread: the thread has a
snippet, a top-level comment, and that comment itself has a snippet. -/
def thread_usable (t : RawCommentThread) : Bool :=
  match t.snippet with
  | none => false
  | some s =>
    match s.topLevelComment with
    | none => false
    | some top => top.snippet.isSome

/-- The id of a thread's top-level comment, defined exactly when the thread
is usable. -/
def thread_top_id (t : RawCommentThread) : Option String :=
  match t.snippet with
  | none => none
  | some s =>
    match s.topLevelComment with
    | none => none
    | some top =>
      match top.snippet with
      | none => none
      | some _ => some top.id

/-- The (comment id, sample rank) pairs of the top-level (non-reply) rows of a
flattened output, in emission order. -/
def top_rank_pairs (rows : List FactComment) : List (String × Option Nat) :=
  rows.filterMap (fun r =>
    if r.is_reply then none else some (r.comment_id, r.sample_rank))

/-- The enumeration of usable threads starting at a given rank: every thread
consumes one rank; only usable threads contribute their top-level comment id
paired with their position. -/
def usable_tops_from : Nat → List RawCommentThread → List (String × Option Nat)
  | _, [] => []
  | rank, t :: ts =>
    (match thread_top_id t with
     | none => []
     | some i => [(i, some rank)]) ++ usable_tops_from (rank + 1) ts

/-- `top_rank_pairs` distributes over list append. -/
theorem top_rank_pairs_append (l1 l2 : List FactComment) :
    top_rank_pairs (l1 ++ l2) = top_rank_pairs l1 ++ top_rank_pairs l2 :=
  List.filterMap_append l1 l2 _

/-- One thread contributes exactly its usable top-level pair to the
top-level ranks: reply rows are filtered out. -/
theorem top_rank_pairs_flatten_one (v c s : String) (rank : Nat)
    (t : RawCommentThread) :
    top_rank_pairs (flatten_one_thread v c s rank t)
      = (match thread_top_id t with
         | none => []
         | some i => [(i, some rank)]) := by
  obtain ⟨tsnip, treplies⟩ := t
  cases tsnip with
  | none => rfl
  | some tsnip =>
    obtain ⟨topc, trc⟩ := tsnip
    cases topc with
    | none => rfl
    | some top =>
      obtain ⟨tid, tops⟩ := top
      cases tops with
      | none => rfl
      | some tops =>
        cases treplies with
        | none => rfl
        | some comments =>
          show top_rank_pairs (_ :: List.filterMap _ comments) = [(tid, some rank)]
          simp only [top_rank_pairs, List.filterMap_cons]
          rw [List.filterMap_eq_nil_iff.mpr]
          · rfl
          · intro r hr
            obtain ⟨rc, _, hrc⟩ := List.mem_filterMap.mp hr
            obtain ⟨rcid, rcsnip⟩ := rc
            cases rcsnip with
            | none => cases hrc
            | some rs =>
              cases hrc
              rfl

/-- The top-level ranks of the flatten loop starting at any rank are the
enumeration of the usable threads from that rank. -/
theorem top_rank_pairs_flatten_from (v c s : String)
    (ts : List RawCommentThread) :
    ∀ rank, top_rank_pairs (flatten_threads_from v c s rank ts)
      = usable_tops_from rank ts := by
  induction ts with
  | nil => intro rank; rfl
  | cons t ts ih =>
    intro rank
    show top_rank_pairs (flatten_one_thread v c s rank t
        ++ flatten_threads_from v c s (rank + 1) ts) = _
    rw [top_rank_pairs_append, top_rank_pairs_flatten_one, ih (rank + 1)]
    rfl

/-- Every reply row emitted by the flatten loop has a null sample rank and
points at an emitted top-level row via its parent comment id. -/
theorem flatten_from_reply_rows (v c s : String) (ts : List RawCommentThread) :
    ∀ rank r, r ∈ flatten_threads_from v c s rank ts → r.is_reply = true →
      r.sample_rank = none ∧
      ∃ p ∈ flatten_threads_from v c s rank ts,
        p.is_reply = false ∧ r.parent_comment_id = some p.comment_id := by
  induction ts with
  | nil => intro rank r hr; cases hr
  | cons t ts ih =>
    intro rank r hr hrep
    have hr' : r ∈ flatten_one_thread v c s rank t
        ++ flatten_threads_from v c s (rank + 1) ts := hr
    rcases List.mem_append.mp hr' with h1 | h2
    · obtain ⟨tsnip, treplies⟩ := t
      cases tsnip with
      | none => cases h1
      | some tsnip =>
        obtain ⟨topc, trc⟩ := tsnip
        cases topc with
        | none => cases h1
        | some top =>
          obtain ⟨tid, tops⟩ := top
          cases tops with
          | none => cases h1
          | some tops =>
            cases treplies with
            | none =>
              rcases List.mem_cons.mp h1 with h1 | h1
              · rw [h1] at hrep
                cases hrep
              · cases h1
            | some comments =>
              rcases List.mem_cons.mp h1 with h1 | h1
              · rw [h1] at hrep
                cases hrep
              · obtain ⟨rc, _, hrc⟩ := List.mem_filterMap.mp h1
                obtain ⟨rcid, rcsnip⟩ := rc
                cases rcsnip with
                | none => cases hrc
                | some rs =>
                  cases hrc
                  refine ⟨rfl, ?_⟩
                  exact ⟨_, List.mem_append_left _ (List.mem_cons_self _ _),
                    rfl, rfl⟩
    · obtain ⟨hrank, p, hp, hpf, hpc⟩ := ih (rank + 1) r h2 hrep
      exact ⟨hrank, p, List.mem_append_right _ hp, hpf, hpc⟩

/-- A sample comment thread whose enumeration slot is skipped: no snippet. -/
def skipped_thread : RawCommentThread := { snippet := none, replies := none }

/-- A usable sample thread: one top-level comment `top1` with one reply. -/
def sample_thread : RawCommentThread :=
  { snippet := some
      { topLevelComment := some
          { id := "top1"
          , snippet := some
              { authorChannelIdValue := some "UCtop"
              , authorDisplayName := some "author"
              , textDisplay := some "great video"
              , likeCount := some 5
              , publishedAt := some "2026-01-08T00:00:00Z"
              , updatedAt := none } }
      , totalReplyCount := some 1 }
  , replies := some
      [{ id := "rep1"
       , snippet := some
          { authorChannelIdValue := some "UCrep"
          , authorDisplayName := some "replier"
          , textDisplay := some "agreed"
          , likeCount := some 1
          , publishedAt := some "2026-01-08T01:00:00Z"
          , updatedAt := none } }] }

/-- C10: the sample rank of a top-level comment is the 1-based position of
its thread in the API response, counting skipped threads; with an unusable
first thread the emitted ranks start at 2 and no rank-1 row exists; and every
reply row carries a null rank plus the id of an emitted top-level comment as
its parent. -/
theorem flatten_threads_rank_semantics (threads : List RawCommentThread)
    (video_id channel_id sample_strategy : String) :
    (top_rank_pairs (flatten_threads threads video_id channel_id sample_strategy)
      = usable_tops_from 1 threads) ∧
    (∀ r ∈ flatten_threads threads video_id channel_id sample_strategy,
      r.is_reply = true →
        r.sample_rank = none ∧
        ∃ p ∈ flatten_threads threads video_id channel_id sample_strategy,
          p.is_reply = false ∧ r.parent_comment_id = some p.comment_id) ∧
    (top_rank_pairs
        (flatten_threads [skipped_thread, sample_thread] "v" "c" "relevance")
      = [("top1", some 2)]) ∧
    (∀ r ∈ flatten_threads [skipped_thread, sample_thread] "v" "c" "relevance",
      r.sample_rank ≠ some 1) := by
  refine ⟨top_rank_pairs_flatten_from video_id channel_id sample_strategy
    threads 1, ?_, by decide, by decide⟩
  intro r hr hrep
  exact flatten_from_reply_rows video_id channel_id sample_strategy threads 1
    r hr hrep

/-- Witness for the C10 theorem: the reply row of the sample input has a null
rank and its parent is the emitted top-level comment. -/
theorem flatten_threads_rank_semantics_witness :
    ({ comment_id := "rep1", video_id := "v", channel_id := "c"
     , parent_comment_id := some "top1", is_reply := true
     , commenter_channel_id := some "UCrep", commenter_name := some "replier"
     , comment_text := some "agreed", like_count := some 1
     , reply_count := some 0, published_at := some "2026-01-08T01:00:00Z"
     , updated_at := none, sample_strategy := "relevance"
     , sample_rank := none } : FactComment).sample_rank = none ∧
    ∃ p ∈ flatten_threads [skipped_thread, sample_thread] "v" "c" "relevance",
      p.is_reply = false ∧
      ({ comment_id := "rep1", video_id := "v", channel_id := "c"
       , parent_comment_id := some "top1", is_reply := true
       , commenter_channel_id := some "UCrep", commenter_name := some "replier"
       , comment_text := some "agreed", like_count := some 1
       , reply_count := some 0, published_at := some "2026-01-08T01:00:00Z"
       , updated_at := none, sample_strategy := "relevance"
       , sample_rank := none } : FactComment).parent_comment_id
        = some p.comment_id :=
  (flatten_threads_rank_semantics [skipped_thread, sample_thread] "v" "c"
    "relevance").2.1 _ (by decide) rfl

end YouPredict
